import Mathlib

/-!
A2A protocol core — shallow embedding and verification.

Embedding of `src/shared/a2a.py`: the A2A message envelope model
(`A2AMessage.to_dict` / `A2AMessage.from_dict`), the agent descriptor
(`AgentInfo`), the server's `POST /message` route (`receive_message`),
and the client (`A2AClient.send_request` / `A2AClient.get_agent_info`).

Python dictionaries whose contents come from JSON bodies are modelled as
association lists of `String × JValue` with unique keys; Python `None`
is `JValue.null`.  Exceptions are modelled with `Except`; the network is
modelled as an explicit parameter giving the HTTP response.
-/

namespace A2A

/-- A JSON-like Python value: the payloads and field values that flow
through the protocol (`dict` contents parsed from JSON bodies). -/
inductive JValue where
  | null : JValue
  | bool (b : Bool) : JValue
  | num (n : Int) : JValue
  | str (s : String) : JValue
  | arr (elems : List JValue) : JValue
  | obj (fields : List (String × JValue)) : JValue

/-- The Python test `v is None`. -/
def JValue.isNull : JValue → Bool
  | .null => true
  | _ => false

/-- A Python `dict` with JSON values, as an association list (unique keys). -/
abbrev Obj := List (String × JValue)

/-- Dict lookup `d[key]`: first matching key. -/
def Obj.get : Obj → String → Option JValue
  | [], _ => none
  | (k, v) :: rest, key => if k = key then some v else Obj.get rest key

/-- The keys of a dict. -/
def Obj.keys (d : Obj) : List String := d.map Prod.fst

/-- A mapping is a genuine dict: its keys are pairwise distinct. -/
def Obj.isDict (d : Obj) : Prop := d.keys.Nodup

instance (d : Obj) : Decidable d.isDict := by
  unfold Obj.isDict; infer_instance

/-- Generic association-list lookup (Python dict lookup, first match). -/
def AList.get {α : Type} : List (String × α) → String → Option α
  | [], _ => none
  | (k, v) :: rest, key => if k = key then some v else AList.get rest key

/-! `MessageType` (enum) -/

/-- Python `class MessageType(Enum)`: the three A2A message kinds. -/
inductive MessageType where
  | request : MessageType
  | response : MessageType
  | error : MessageType
deriving DecidableEq, Repr

/-- The `.value` string of each enum member. -/
def MessageType.value : MessageType → String
  | .request => "request"
  | .response => "response"
  | .error => "error"

/-- The enum constructor call `MessageType(x)` on a JSON value: succeeds
exactly on the three member strings, otherwise raises `ValueError`. -/
def MessageType.ofValue : JValue → Option MessageType
  | .str "request" => some .request
  | .str "response" => some .response
  | .str "error" => some .error
  | _ => none

/-! Python exceptions raised during decoding -/

/-- The exceptions `A2AMessage.from_dict` / `AgentInfo(**kwargs)` can raise:
`KeyError` from `data["message_type"]`, `ValueError` from `MessageType(...)`,
`TypeError` from calling the dataclass constructor with bad keyword
arguments. -/
inductive PyError where
  | keyError (key : String) : PyError
  | valueError (msg : String) : PyError
  | typeError (msg : String) : PyError
deriving DecidableEq, Repr

/-- Rendering `str(e)` of an exception, as interpolated into the error
payload. -/
def PyError.str : PyError → String
  | .keyError k => "'" ++ k ++ "'"
  | .valueError m => m
  | .typeError m => m

/-! `A2AMessage` (the envelope) -/

/-- Python `@dataclass A2AMessage`: the standard A2A message format.  Field values
other than `message_type` are JSON values as delivered by the transport
(Python does not enforce the `str` / `Dict` annotations); Python `None` is
`JValue.null`. -/
structure A2AMessage where
  message_id : JValue
  from_agent : JValue
  to_agent : JValue
  message_type : MessageType
  payload : JValue
  timestamp : JValue
  reply_to : JValue

/-- Constructing an `A2AMessage(...)` runs `__post_init__`, which replaces a
`None` timestamp with `datetime.utcnow().isoformat()` — the current time is
passed explicitly as `now`. -/
def A2AMessage.make (now : String) (message_id from_agent to_agent : JValue)
    (mt : MessageType) (payload : JValue) (timestamp reply_to : JValue) :
    A2AMessage :=
  { message_id := message_id
    from_agent := from_agent
    to_agent := to_agent
    message_type := mt
    payload := payload
    timestamp := if timestamp.isNull then .str now else timestamp
    reply_to := reply_to }

/-- Method `A2AMessage.to_dict`: `asdict(self)` (all seven fields, in declaration
order) with `message_type` replaced by its `.value` string. -/
def A2AMessage.to_dict (m : A2AMessage) : Obj :=
  [("message_id", m.message_id),
   ("from_agent", m.from_agent),
   ("to_agent", m.to_agent),
   ("message_type", .str m.message_type.value),
   ("payload", m.payload),
   ("timestamp", m.timestamp),
   ("reply_to", m.reply_to)]

/-- The seven keyword parameters accepted by the `A2AMessage` constructor. -/
def A2AMessage.fieldNames : List String :=
  ["message_id", "from_agent", "to_agent", "message_type", "payload",
   "timestamp", "reply_to"]

/-- The five constructor parameters of `A2AMessage` without a default
value: omitting any of them from `cls(**data)` raises `TypeError`. -/
def A2AMessage.requiredFieldNames : List String :=
  ["message_id", "from_agent", "to_agent", "message_type", "payload"]

/-- Method `A2AMessage.from_dict`: copies `data`, rewrites `data["message_type"]`
through the `MessageType` enum (raising `KeyError` if the key is absent and
`ValueError` if the value is not a member string), then calls
`cls(**data)` — which raises `TypeError` on a keyword outside the seven
fields or a missing required field, and otherwise builds the message (with
`__post_init__` defaulting a `None`/absent timestamp to `now`). -/
def A2AMessage.from_dict (now : String) (data : Obj) : Except PyError A2AMessage :=
  match data.get "message_type" with
  | none => .error (.keyError "message_type")
  | some v =>
    match MessageType.ofValue v with
    | none => .error (.valueError "is not a valid MessageType")
    | some mt =>
      if data.keys.all (fun k => A2AMessage.fieldNames.contains k) then
        match data.get "message_id", data.get "from_agent",
              data.get "to_agent", data.get "payload" with
        | some mid, some fa, some ta, some pl =>
            .ok (A2AMessage.make now mid fa ta mt pl
                  ((data.get "timestamp").getD .null)
                  ((data.get "reply_to").getD .null))
        | _, _, _, _ =>
            .error (.typeError "missing required positional argument")
      else .error (.typeError "got an unexpected keyword argument")

/-! `AgentCapability` and `AgentInfo` (discovery types) -/

/-- Python `@dataclass AgentCapability`: a named operation an agent exposes. -/
structure AgentCapability where
  name : String
  description : String
  input_schema : Obj
  output_schema : Obj

/-- Serialization `asdict` flattens an `AgentCapability` into a plain
mapping. -/
def AgentCapability.to_obj (c : AgentCapability) : Obj :=
  [("name", .str c.name),
   ("description", .str c.description),
   ("input_schema", .obj c.input_schema),
   ("output_schema", .obj c.output_schema)]

/-- The runtime value held in an `AgentInfo.capabilities` field.  Python
does not enforce the `List[AgentCapability]` annotation: a descriptor built
by an agent at startup holds a list of `AgentCapability` dataclass values
(`typed`), while one built by `AgentInfo(**response.json())` holds whatever
raw JSON value the body carried (`rawv`) — the two are distinguishable
(and compare unequal) in Python. -/
inductive CapsVal where
  | typed (caps : List AgentCapability) : CapsVal
  | rawv (v : JValue) : CapsVal

/-- Serialization `asdict` on the capabilities field: dataclass elements are flattened
recursively into mappings; a raw JSON value is deep-copied unchanged. -/
def CapsVal.asdictVal : CapsVal → JValue
  | .typed caps => .arr (caps.map (fun c => .obj c.to_obj))
  | .rawv v => v

/-- Python `==` on a capabilities field value.  Lists compare elementwise;
an `AgentCapability` dataclass never compares equal to a plain mapping, so
a `typed` list equals a raw JSON value only when both are empty lists. -/
def CapsVal.pyEq : CapsVal → CapsVal → Prop
  | .typed l, .typed l' => l = l'
  | .rawv v, .rawv v' => v = v'
  | .typed l, .rawv v => l = [] ∧ v = .arr []
  | .rawv v, .typed l => v = .arr [] ∧ l = []

/-- Python `@dataclass AgentInfo`: agent information for service discovery.
`status` defaults to `"active"`. -/
structure AgentInfo where
  agent_id : JValue
  name : JValue
  description : JValue
  endpoint : JValue
  capabilities : CapsVal
  framework : JValue
  model_provider : JValue
  status : JValue

/-- Method `AgentInfo.to_dict`: `asdict(self)`, flattening nested
dataclasses. -/
def AgentInfo.to_dict (a : AgentInfo) : Obj :=
  [("agent_id", a.agent_id),
   ("name", a.name),
   ("description", a.description),
   ("endpoint", a.endpoint),
   ("capabilities", a.capabilities.asdictVal),
   ("framework", a.framework),
   ("model_provider", a.model_provider),
   ("status", a.status)]

/-- Python `==` on `AgentInfo` (dataclass equality): fieldwise equality,
with the capabilities field compared by Python list/dataclass equality. -/
def AgentInfo.pyEq (a b : AgentInfo) : Prop :=
  a.agent_id = b.agent_id ∧ a.name = b.name ∧
  a.description = b.description ∧ a.endpoint = b.endpoint ∧
  CapsVal.pyEq a.capabilities b.capabilities ∧
  a.framework = b.framework ∧ a.model_provider = b.model_provider ∧
  a.status = b.status

/-- The eight keyword parameters accepted by the `AgentInfo` constructor. -/
def AgentInfo.fieldNames : List String :=
  ["agent_id", "name", "description", "endpoint", "capabilities",
   "framework", "model_provider", "status"]

/-- The call `AgentInfo(**d)` as performed by `A2AClient.get_agent_info` on
a decoded JSON body: raises `TypeError` on an unexpected or missing keyword,
defaults `status` to `"active"`, and stores the body's `capabilities` value
as-is (no conversion of mappings back into `AgentCapability` values). -/
def AgentInfo.fromKwargs (d : Obj) : Except PyError AgentInfo :=
  if d.keys.all (fun k => AgentInfo.fieldNames.contains k) then
    match d.get "agent_id", d.get "name", d.get "description",
          d.get "endpoint", d.get "capabilities", d.get "framework",
          d.get "model_provider" with
    | some aid, some nm, some ds, some ep, some caps, some fw, some mp =>
        .ok { agent_id := aid, name := nm, description := ds, endpoint := ep,
              capabilities := .rawv caps, framework := fw,
              model_provider := mp,
              status := (d.get "status").getD (.str "active") }
    | _, _, _, _, _, _, _ =>
        .error (.typeError "missing required positional argument")
  else .error (.typeError "got an unexpected keyword argument")

/-! `A2AServer` — the `POST /message` route -/

/-- FastAPI `HTTPException(status_code=..., detail=...)`: the structured
failure the route raises; FastAPI turns it into an HTTP response with that
status and the detail as body, without terminating the process. -/
structure HTTPExceptionV where
  status_code : Nat
  detail : Obj

/-- The `POST /message` route body (`receive_message` in `_setup_routes`).

The bound handler is `message_handler : A2AMessage → Except String Obj`
(`Except.error s` models the handler raising an exception whose `str` is
`s`).  `newId` stands for the one `str(uuid.uuid4())` drawn in whichever
envelope construction the request reaches, and `now` for the current
timestamp; `data` is the parsed JSON body.

Control flow of the `try/except`: if `A2AMessage.from_dict` raises, the
local `message` was never bound, so the `"message" in locals()` guard fails
and the error envelope uses `to_agent="unknown"`, `reply_to=None`; if the
handler raises, `message` is bound and its addressing is used.  Either way
the route raises `HTTPException(500, error_envelope.to_dict())` instead of
letting the exception escape. -/
def receive_message (agent_id : String)
    (message_handler : A2AMessage → Except String Obj)
    (newId now : String) (data : Obj) : Except HTTPExceptionV Obj :=
  match A2AMessage.from_dict now data with
  | .error e =>
      let error_message := A2AMessage.make now (.str newId) (.str agent_id)
        (.str "unknown") .error (.obj [("error", .str e.str)]) .null .null
      .error ⟨500, error_message.to_dict⟩
  | .ok message =>
      match message_handler message with
      | .ok result =>
          let response_message := A2AMessage.make now (.str newId)
            (.str agent_id) message.from_agent .response (.obj result)
            .null message.message_id
          .ok response_message.to_dict
      | .error e =>
          let error_message := A2AMessage.make now (.str newId)
            (.str agent_id) message.from_agent .error
            (.obj [("error", .str e)]) .null message.message_id
          .error ⟨500, error_message.to_dict⟩

/-! `A2AClient` -/

/-- Exceptions the `requests` library raises: connection-level failures
(including timeouts) from the call itself, and `HTTPError` from
`raise_for_status`. -/
inductive RequestsError where
  | connection (msg : String) : RequestsError
  | timeout : RequestsError
  | httpStatus (code : Nat) : RequestsError
deriving DecidableEq, Repr

/-- What a client-side call can raise: a transport failure, or a Python
exception escaping from body decoding (`A2AMessage.from_dict` /
`AgentInfo(**body)`). -/
inductive ClientError where
  | transport (e : RequestsError) : ClientError
  | decode (e : PyError) : ClientError
deriving DecidableEq, Repr

/-- The outcome of one HTTP call made through `requests`: either the call
itself raised, or a response arrived with a status code and a parsed JSON
object body. -/
inductive HTTPOutcome where
  | failure (e : RequestsError) : HTTPOutcome
  | response (status : Nat) (body : Obj) : HTTPOutcome

/-- Method `response.raise_for_status()`: raises `HTTPError` exactly for client
(4xx) and server (5xx) error status codes. -/
def raise_for_status (status : Nat) : Except RequestsError Unit :=
  if 400 ≤ status ∧ status < 600 then .error (.httpStatus status) else .ok ()

/-- Client state of `A2AClient`: identity, timeout, and the discovery cache
`_agent_cache` (endpoint string → descriptor). -/
structure A2AClient where
  agent_id : String
  timeout : Nat
  agent_cache : List (String × AgentInfo)

/-- Method `A2AClient.send_request`: builds a fresh `request` envelope (`newId` is
the generated `message_id`, `now` the generated timestamp), POSTs its
`to_dict` form to `{endpoint}/message` (the network is the explicit
function `net : url → posted body → HTTPOutcome`), propagates connection
failures, calls `raise_for_status`, decodes the body with
`A2AMessage.from_dict`, and returns the decoded envelope's `payload`.
The client state is returned unchanged: the method never touches
`_agent_cache`. -/
def A2AClient.send_request (c : A2AClient) (newId now : String)
    (to_agent endpoint : String) (payload : Obj)
    (net : String → Obj → HTTPOutcome) :
    (Except ClientError JValue) × A2AClient :=
  let message := A2AMessage.make now (.str newId) (.str c.agent_id)
    (.str to_agent) .request (.obj payload) .null .null
  let result : Except ClientError JValue :=
    match net (endpoint ++ "/message") message.to_dict with
    | .failure e => .error (.transport e)
    | .response status body =>
        match raise_for_status status with
        | .error e => .error (.transport e)
        | .ok _ =>
            match A2AMessage.from_dict now body with
            | .error e => .error (.decode e)
            | .ok response_message => .ok response_message.payload
  (result, c)

/-- Method `A2AClient.get_agent_info`: returns the cached descriptor for
`endpoint` if present (no network call); otherwise GETs
`{endpoint}/info`, propagates connection failures, calls
`raise_for_status`, builds `AgentInfo(**response.json())`, stores it in
the cache keyed by `endpoint`, and returns it.  The third component counts
the network calls the invocation performed (0 on a cache hit, 1
otherwise). -/
def A2AClient.get_agent_info (c : A2AClient) (endpoint : String)
    (net : String → HTTPOutcome) :
    (Except ClientError AgentInfo) × A2AClient × Nat :=
  match AList.get c.agent_cache endpoint with
  | some agent_info => (.ok agent_info, c, 0)
  | none =>
      match net (endpoint ++ "/info") with
      | .failure e => (.error (.transport e), c, 1)
      | .response status body =>
          match raise_for_status status with
          | .error e => (.error (.transport e), c, 1)
          | .ok _ =>
              match AgentInfo.fromKwargs body with
              | .error e => (.error (.decode e), c, 1)
              | .ok agent_info =>
                  (.ok agent_info,
                   { c with agent_cache := c.agent_cache ++ [(endpoint, agent_info)] },
                   1)

/-! Heap model of `from_dict` for the mutation claim

`A2AMessage.from_dict` starts with `data = data.copy()` and then assigns
`data["message_type"]`; to reason about mutation of the *argument*, the
method is re-expressed over an explicit heap of dict objects addressed by
reference.  Dict values here are `PyVal`: JSON values as delivered by the
transport, or the `MessageType` enum member the method writes into the
copy. -/

/-- A Python runtime value stored in a dict slot during decoding. -/
inductive PyVal where
  | j (v : JValue) : PyVal
  | enum (m : MessageType) : PyVal

/-- A dict object whose slots hold runtime values. -/
abbrev PyObj := List (String × PyVal)

/-- Dict lookup. -/
def PyObj.get : PyObj → String → Option PyVal
  | [], _ => none
  | (k, v) :: rest, key => if k = key then some v else PyObj.get rest key

/-- Dict assignment `d[key] = v`: overwrite the existing slot or append. -/
def PyObj.set : PyObj → String → PyVal → PyObj
  | [], key, v => [(key, v)]
  | (k, w) :: rest, key, v =>
      if k = key then (key, v) :: rest else (k, w) :: PyObj.set rest key v

/-- The keys of a dict object. -/
def PyObj.keys (d : PyObj) : List String := d.map Prod.fst

/-- The call `MessageType(x)` on a runtime value: member strings convert, and an
enum member passed to its own class is returned unchanged. -/
def MessageType.ofPyVal : PyVal → Option MessageType
  | .j v => MessageType.ofValue v
  | .enum m => some m

/-- A heap of dict objects, addressed by `Nat` references. -/
abbrev Heap := List PyObj

/-- Method `A2AMessage.from_dict` over an explicit heap, mirroring the method
statement by statement: read the argument object at `r`; `data.copy()`
allocates a fresh object (at index `h.length`) holding the same slots;
`data["message_type"] = MessageType(data["message_type"])` raises
`KeyError`/`ValueError` as in the flat model and otherwise writes the enum
member into the *copy*; `cls(**data)` then reads the copy.  Returns the
result together with the final heap.  (Field extraction demands JSON
values, which is what every slot of a JSON-parsed argument holds.) -/
def from_dict_heap (now : String) (h : Heap) (r : Nat) :
    (Except PyError A2AMessage) × Heap :=
  let data := h.getD r []
  let r2 := h.length
  let h1 : Heap := h ++ [data]
  match PyObj.get data "message_type" with
  | none => (.error (.keyError "message_type"), h1)
  | some v =>
    match MessageType.ofPyVal v with
    | none => (.error (.valueError "is not a valid MessageType"), h1)
    | some mt =>
      let h2 : Heap := h1.set r2 (PyObj.set (h1.getD r2 []) "message_type" (.enum mt))
      let copy := h2.getD r2 []
      if copy.keys.all (fun k => A2AMessage.fieldNames.contains k) then
        match PyObj.get copy "message_id", PyObj.get copy "from_agent",
              PyObj.get copy "to_agent", PyObj.get copy "payload" with
        | some (.j mid), some (.j fa), some (.j ta), some (.j pl) =>
            (.ok (A2AMessage.make now mid fa ta mt pl
                   (match PyObj.get copy "timestamp" with
                    | some (.j t) => t
                    | _ => .null)
                   (match PyObj.get copy "reply_to" with
                    | some (.j rt) => rt
                    | _ => .null)), h2)
        | _, _, _, _ =>
            (.error (.typeError "missing required positional argument"), h2)
      else (.error (.typeError "got an unexpected keyword argument"), h2)

/-! Helper lemmas -/

theorem AList.get_append_of_get_some {α : Type} {l l' : List (String × α)}
    {k : String} {v : α} (h : AList.get l k = some v) :
    AList.get (l ++ l') k = some v := by
  induction l with
  | nil => simp [AList.get] at h
  | cons p rest ih =>
    obtain ⟨k', v'⟩ := p
    simp only [AList.get, List.cons_append] at h ⊢
    by_cases hk : k' = k
    · simpa [hk] using h
    · rw [if_neg hk] at h ⊢
      exact ih h

theorem AList.get_append_single_self {α : Type} {l : List (String × α)}
    {k : String} (h : AList.get l k = none) (v : α) :
    AList.get (l ++ [(k, v)]) k = some v := by
  induction l with
  | nil => simp [AList.get]
  | cons p rest ih =>
    obtain ⟨k', v'⟩ := p
    simp only [AList.get, List.cons_append] at h ⊢
    by_cases hk : k' = k
    · simp [hk] at h
    · rw [if_neg hk] at h ⊢
      exact ih h

/-! Claims -/

/-- C2: for every valid envelope `e` (all required fields present, a
constructed timestamp, the optional `reply_to` possibly `None`),
deserializing the serialized form recovers `e` exactly field-for-field:
`A2AMessage.from_dict (A2AMessage.to_dict e) = e`. -/
theorem from_dict_to_dict_roundtrip (now : String) (e : A2AMessage)
    (h : e.timestamp.isNull = false) :
    A2AMessage.from_dict now e.to_dict = Except.ok e := by
  obtain ⟨mid, fa, ta, mt, pl, ts, rt⟩ := e
  simp only at h
  cases mt <;>
    simp [A2AMessage.from_dict, A2AMessage.to_dict, Obj.get, Obj.keys,
      MessageType.ofValue, MessageType.value, A2AMessage.make,
      A2AMessage.fieldNames, h]

/-- Witness for C2 at a concrete envelope with `reply_to` absent. -/
theorem from_dict_to_dict_roundtrip_witness :
    A2AMessage.from_dict "t1"
      (A2AMessage.to_dict
        ⟨.str "m1", .str "alice", .str "bob", .request,
         .obj [("action", .str "echo")], .str "t0", .null⟩) =
    Except.ok
      ⟨.str "m1", .str "alice", .str "bob", .request,
       .obj [("action", .str "echo")], .str "t0", .null⟩ :=
  from_dict_to_dict_roundtrip "t1" _ rfl

/-- C3: decoding a mapping whose `message_type` is absent or not one of
the three recognized strings, or which is missing a required envelope
field, always fails with an error — never silently defaults. -/
theorem from_dict_rejects_malformed (now : String) (d : Obj)
    (h : (∀ v, d.get "message_type" = some v → MessageType.ofValue v = none)
       ∨ (∃ k, k ∈ A2AMessage.requiredFieldNames ∧ d.get k = none)) :
    ∃ err, A2AMessage.from_dict now d = Except.error err := by
  cases hmt : d.get "message_type" with
  | none =>
    exact ⟨.keyError "message_type", by simp [A2AMessage.from_dict, hmt]⟩
  | some v =>
    cases hov : MessageType.ofValue v with
    | none =>
      exact ⟨.valueError "is not a valid MessageType",
        by simp [A2AMessage.from_dict, hmt, hov]⟩
    | some mt =>
      rcases h with hbad | ⟨k, hk, hnone⟩
      · exact absurd (hbad v hmt) (by simp [hov])
      · by_cases hall : ∀ x ∈ d.keys, x ∈ A2AMessage.fieldNames
        · refine ⟨.typeError "missing required positional argument", ?_⟩
          simp only [A2AMessage.requiredFieldNames, List.mem_cons,
            List.not_mem_nil, or_false] at hk
          rcases hk with rfl | rfl | rfl | rfl | rfl <;>
            first
            | (rw [hnone] at hmt; cases hmt)
            | (cases hmid : d.get "message_id" <;>
               cases hfa : d.get "from_agent" <;>
               cases hta : d.get "to_agent" <;>
               cases hpl : d.get "payload" <;>
               simp_all [A2AMessage.from_dict])
        · exact ⟨.typeError "got an unexpected keyword argument",
            by simp [A2AMessage.from_dict, hmt, hov, hall]⟩

/-- Witness for C3: a mapping with an unrecognized `message_type`. -/
theorem from_dict_rejects_malformed_witness :
    ∃ err,
      A2AMessage.from_dict "t"
        [("message_id", .str "m1"), ("from_agent", .str "alice"),
         ("to_agent", .str "bob"), ("message_type", .str "bogus"),
         ("payload", .obj [])] = Except.error err :=
  from_dict_rejects_malformed "t" _
    (Or.inl (fun v hv => by
      simp only [Obj.get, reduceIte] at hv
      cases hv
      rfl))

/-- C9: a mapping containing any key outside the seven envelope fields
is rejected by `A2AMessage.from_dict` (the dataclass constructor raises
`TypeError` on the unexpected keyword) rather than silently ignored. -/
theorem from_dict_rejects_unknown_key (now : String) (d : Obj) (k : String)
    (hmem : k ∈ d.keys) (hout : k ∉ A2AMessage.fieldNames) :
    ∃ err, A2AMessage.from_dict now d = Except.error err := by
  cases hmt : d.get "message_type" with
  | none =>
    exact ⟨.keyError "message_type", by simp [A2AMessage.from_dict, hmt]⟩
  | some v =>
    cases hov : MessageType.ofValue v with
    | none =>
      exact ⟨.valueError "is not a valid MessageType",
        by simp [A2AMessage.from_dict, hmt, hov]⟩
    | some mt =>
      have hall : ¬ ∀ x ∈ d.keys, x ∈ A2AMessage.fieldNames :=
        fun hall => hout (hall k hmem)
      exact ⟨.typeError "got an unexpected keyword argument",
        by simp [A2AMessage.from_dict, hmt, hov, hall]⟩

/-- Witness for C9: an otherwise well-formed envelope mapping carrying the
extra key `"extra"`. -/
theorem from_dict_rejects_unknown_key_witness :
    ∃ err,
      A2AMessage.from_dict "t"
        [("message_id", .str "m1"), ("from_agent", .str "alice"),
         ("to_agent", .str "bob"), ("message_type", .str "request"),
         ("payload", .obj []), ("extra", .null)] = Except.error err :=
  from_dict_rejects_unknown_key "t" _ "extra" (by decide) (by decide)

/-- C10: the decoder `A2AMessage.from_dict` never mutates its argument: in the heap
model, the dict object passed in is unchanged after the call, whether
decoding succeeds or fails, because the method copies the mapping before
rewriting its `message_type` slot. -/
theorem from_dict_heap_preserves_argument (now : String) (h : Heap) (r : Nat)
    (hr : r < h.length) :
    ((from_dict_heap now h r).2).getD r [] = h.getD r [] := by
  have hne : h.length ≠ r := Nat.ne_of_gt hr
  have h1 : (h ++ [h[r]?.getD []])[r]? = h[r]? := List.getElem?_append_left hr
  have h2 : ∀ o : PyObj, ((h ++ [h[r]?.getD []]).set h.length o)[r]? = h[r]? := by
    intro o
    rw [List.getElem?_set_ne hne]
    exact h1
  unfold from_dict_heap
  dsimp only
  simp only [List.getD_eq_getElem?_getD]
  split
  · rw [h1]
  · split
    · rw [h1]
    · split
      · split
        · rw [h2]
        · rw [h2]
      · rw [h2]

/-- Witness for C10 at a concrete one-object heap. -/
theorem from_dict_heap_preserves_argument_witness :
    ((from_dict_heap "t" [[("message_type", .j (.str "request"))]] 0).2).getD 0 []
      = ([[("message_type", .j (.str "request"))]] : Heap).getD 0 [] :=
  from_dict_heap_preserves_argument "t" _ 0 (by decide)

/-- C1: for every well-formed request envelope `r` POSTed to the
`/message` route, the envelope `s` the server returns satisfies
`s.reply_to = r.message_id` and `s.to_agent = r.from_agent`, with
`s.from_agent` the serving agent's id, `s.message_id` the freshly generated
uuid, `s.payload` the handler's returned mapping and `s.message_type =
response` when the handler succeeds — and `error` when it raises. -/
theorem receive_message_correlates (agent_id : String)
    (message_handler : A2AMessage → Except String Obj)
    (newId now : String) (data : Obj) (r : A2AMessage)
    (hdec : A2AMessage.from_dict now data = Except.ok r)
    (_hreq : r.message_type = .request) :
    (∀ res, message_handler r = Except.ok res →
      ∃ s : A2AMessage,
        receive_message agent_id message_handler newId now data =
          Except.ok s.to_dict ∧
        s.reply_to = r.message_id ∧ s.to_agent = r.from_agent ∧
        s.from_agent = .str agent_id ∧ s.message_id = .str newId ∧
        s.payload = .obj res ∧ s.message_type = .response) ∧
    (∀ e, message_handler r = Except.error e →
      ∃ s : A2AMessage,
        receive_message agent_id message_handler newId now data =
          Except.error ⟨500, s.to_dict⟩ ∧
        s.reply_to = r.message_id ∧ s.to_agent = r.from_agent ∧
        s.from_agent = .str agent_id ∧ s.message_id = .str newId ∧
        s.payload = .obj [("error", .str e)] ∧ s.message_type = .error) := by
  constructor
  · intro res hres
    refine ⟨A2AMessage.make now (.str newId) (.str agent_id) r.from_agent
      .response (.obj res) .null r.message_id, ?_⟩
    simp [receive_message, hdec, hres, A2AMessage.make, JValue.isNull]
  · intro e herr
    refine ⟨A2AMessage.make now (.str newId) (.str agent_id) r.from_agent
      .error (.obj [("error", .str e)]) .null r.message_id, ?_⟩
    simp [receive_message, hdec, herr, A2AMessage.make, JValue.isNull]

/-- Witness for C1: a concrete request through a handler that echoes a
success payload. -/
theorem receive_message_correlates_witness :
    ∃ s : A2AMessage,
      receive_message "srv" (fun _ => Except.ok [("status", .str "success")])
        "id2" "t1"
        [("message_id", .str "m1"), ("from_agent", .str "alice"),
         ("to_agent", .str "srv"), ("message_type", .str "request"),
         ("payload", .obj []), ("timestamp", .str "t0"), ("reply_to", .null)]
        = Except.ok s.to_dict ∧
      s.reply_to = .str "m1" ∧ s.to_agent = .str "alice" ∧
      s.from_agent = .str "srv" ∧ s.message_id = .str "id2" ∧
      s.payload = .obj [("status", .str "success")] ∧
      s.message_type = .response :=
  (receive_message_correlates "srv"
    (fun _ => Except.ok [("status", .str "success")]) "id2" "t1"
    [("message_id", .str "m1"), ("from_agent", .str "alice"),
     ("to_agent", .str "srv"), ("message_type", .str "request"),
     ("payload", .obj []), ("timestamp", .str "t0"), ("reply_to", .null)]
    ⟨.str "m1", .str "alice", .str "srv", .request, .obj [],
     .str "t0", .null⟩ rfl rfl).1 [("status", .str "success")] rfl

/-- C4: if the bound handler raises on a successfully decoded request,
the server constructs an `error`-kind envelope addressed back to the
request (`to_agent` = request's `from_agent`, `reply_to` = request's
`message_id`) with payload `{error: <message>}`, and raises it as the
`detail` of an `HTTPException` with status 500 — a structured value
returned to the transport layer, not a crash: `receive_message` is a total
function into `Except HTTPExceptionV Obj`. -/
theorem receive_message_handler_failure (agent_id : String)
    (message_handler : A2AMessage → Except String Obj)
    (newId now : String) (data : Obj) (r : A2AMessage) (e : String)
    (hdec : A2AMessage.from_dict now data = Except.ok r)
    (herr : message_handler r = Except.error e) :
    ∃ s : A2AMessage,
      receive_message agent_id message_handler newId now data =
        Except.error ⟨500, s.to_dict⟩ ∧
      s.message_type = .error ∧ s.to_agent = r.from_agent ∧
      s.reply_to = r.message_id ∧
      s.payload = .obj [("error", .str e)] := by
  refine ⟨A2AMessage.make now (.str newId) (.str agent_id) r.from_agent
    .error (.obj [("error", .str e)]) .null r.message_id, ?_⟩
  simp [receive_message, hdec, herr, A2AMessage.make, JValue.isNull]

/-- Witness for C4: a handler that always raises. -/
theorem receive_message_handler_failure_witness :
    ∃ s : A2AMessage,
      receive_message "srv" (fun _ => Except.error "boom") "id2" "t1"
        [("message_id", .str "m1"), ("from_agent", .str "alice"),
         ("to_agent", .str "srv"), ("message_type", .str "request"),
         ("payload", .obj []), ("timestamp", .str "t0"), ("reply_to", .null)]
        = Except.error ⟨500, s.to_dict⟩ ∧
      s.message_type = .error ∧ s.to_agent = .str "alice" ∧
      s.reply_to = .str "m1" ∧
      s.payload = .obj [("error", .str "boom")] :=
  receive_message_handler_failure "srv" (fun _ => Except.error "boom")
    "id2" "t1"
    [("message_id", .str "m1"), ("from_agent", .str "alice"),
     ("to_agent", .str "srv"), ("message_type", .str "request"),
     ("payload", .obj []), ("timestamp", .str "t0"), ("reply_to", .null)]
    ⟨.str "m1", .str "alice", .str "srv", .request, .obj [],
     .str "t0", .null⟩ "boom" rfl rfl

/-- C5 counterexample: a POSTed body whose `from_agent` (`"alice"`) and
`message_id` (`"m-1"`) are perfectly recoverable but whose `message_type`
is unrecognized.  The claim says the recovered values are wrapped into the
error envelope's `to_agent`/`reply_to`; the code instead always takes the
`"message" in locals()` false branch and emits the placeholder
`to_agent = "unknown"` and `reply_to = None`. -/
theorem receive_message_decode_failure_ignores_recoverable_fields :
    receive_message "srv" (fun _ => Except.ok []) "id" "t"
      [("message_id", .str "m-1"), ("from_agent", .str "alice"),
       ("to_agent", .str "bob"), ("message_type", .str "bogus"),
       ("payload", .obj [])] =
      Except.error ⟨500,
        [("message_id", .str "id"), ("from_agent", .str "srv"),
         ("to_agent", .str "unknown"), ("message_type", .str "error"),
         ("payload", .obj [("error", .str "is not a valid MessageType")]),
         ("timestamp", .str "t"), ("reply_to", .null)]⟩ ∧
    Obj.get [("message_id", .str "m-1"), ("from_agent", .str "alice"),
       ("to_agent", .str "bob"), ("message_type", .str "bogus"),
       ("payload", .obj [])] "from_agent" = some (.str "alice") ∧
    JValue.str "unknown" ≠ JValue.str "alice" := by
  refine ⟨rfl, rfl, ?_⟩
  simp

/-- C5 amended: for every POSTed body whose deserialization fails, the
server raises an `HTTPException` with status 500 whose `detail` is an
error envelope — but that envelope always carries the placeholder
`to_agent = "unknown"` and `reply_to = None`, regardless of whether the
body's `from_agent`/`message_id` were recoverable. -/
theorem receive_message_decode_failure_uses_placeholders (agent_id : String)
    (message_handler : A2AMessage → Except String Obj)
    (newId now : String) (data : Obj) (e : PyError)
    (hdec : A2AMessage.from_dict now data = Except.error e) :
    ∃ s : A2AMessage,
      receive_message agent_id message_handler newId now data =
        Except.error ⟨500, s.to_dict⟩ ∧
      s.message_type = .error ∧ s.from_agent = .str agent_id ∧
      s.to_agent = .str "unknown" ∧ s.reply_to = .null ∧
      s.payload = .obj [("error", .str e.str)] := by
  refine ⟨A2AMessage.make now (.str newId) (.str agent_id) (.str "unknown")
    .error (.obj [("error", .str e.str)]) .null .null, ?_⟩
  simp [receive_message, hdec, A2AMessage.make, JValue.isNull]

/-- Witness for the amended C5 at a concrete undecodable body. -/
theorem receive_message_decode_failure_uses_placeholders_witness :
    ∃ s : A2AMessage,
      receive_message "srv" (fun _ => Except.ok []) "id" "t"
        [("message_type", .str "bogus")] =
        Except.error ⟨500, s.to_dict⟩ ∧
      s.message_type = .error ∧ s.from_agent = .str "srv" ∧
      s.to_agent = .str "unknown" ∧ s.reply_to = .null ∧
      s.payload = .obj
        [("error", .str (PyError.valueError "is not a valid MessageType").str)] :=
  receive_message_decode_failure_uses_placeholders "srv"
    (fun _ => Except.ok []) "id" "t" [("message_type", .str "bogus")]
    (.valueError "is not a valid MessageType") rfl

/-- C6 counterexample: the claim says every non-2xx response raises.
But `raise_for_status` raises only for 4xx/5xx: on a 304 response carrying
a decodable envelope, `send_request` returns the payload instead of
raising. -/
theorem send_request_returns_payload_on_304 :
    ((A2AClient.send_request ⟨"alice", 120, []⟩ "id" "t" "bob" "http://b" []
        (fun _ _ => .response 304
          [("message_id", .str "m2"), ("from_agent", .str "bob"),
           ("to_agent", .str "alice"), ("message_type", .str "response"),
           ("payload", .obj [("status", .str "success")]),
           ("timestamp", .str "t2"), ("reply_to", .str "id")])).1
      = Except.ok (.obj [("status", .str "success")])) ∧
    ¬ (200 ≤ 304 ∧ 304 < 300) := ⟨rfl, by decide⟩

/-- C6 amended: the client `send_request` raises on a network failure or timeout,
and on a 4xx/5xx response (`raise_for_status`); on any response whose
status is outside 400–599 (in particular every 2xx) it deserializes the
body as an envelope — raising if that fails — and returns the envelope's
payload verbatim, with no constraint on whether its kind is `response` or
`error`. -/
theorem send_request_transport_and_payload (c : A2AClient)
    (newId now to_agent endpoint : String) (payload : Obj)
    (net : String → Obj → HTTPOutcome) :
    (∀ e, net (endpoint ++ "/message")
        (A2AMessage.make now (.str newId) (.str c.agent_id) (.str to_agent)
          .request (.obj payload) .null .null).to_dict = .failure e →
      (c.send_request newId now to_agent endpoint payload net).1 =
        Except.error (.transport e)) ∧
    (∀ status body, net (endpoint ++ "/message")
        (A2AMessage.make now (.str newId) (.str c.agent_id) (.str to_agent)
          .request (.obj payload) .null .null).to_dict =
          .response status body →
      ((400 ≤ status ∧ status < 600) →
        (c.send_request newId now to_agent endpoint payload net).1 =
          Except.error (.transport (.httpStatus status))) ∧
      (¬ (400 ≤ status ∧ status < 600) →
        (∀ e, A2AMessage.from_dict now body = Except.error e →
          (c.send_request newId now to_agent endpoint payload net).1 =
            Except.error (.decode e)) ∧
        (∀ m, A2AMessage.from_dict now body = Except.ok m →
          (c.send_request newId now to_agent endpoint payload net).1 =
            Except.ok m.payload))) := by
  refine ⟨?_, ?_⟩
  · intro e hnet
    simp [A2AClient.send_request, hnet]
  · intro status body hnet
    refine ⟨?_, ?_⟩
    · intro hs
      simp [A2AClient.send_request, hnet, raise_for_status, hs]
    · intro hs
      refine ⟨?_, ?_⟩
      · intro e hdec
        simp [A2AClient.send_request, hnet, raise_for_status, hs, hdec]
      · intro m hdec
        simp [A2AClient.send_request, hnet, raise_for_status, hs, hdec]

/-- Witness for the amended C6: a 500 response raises the HTTP error. -/
theorem send_request_transport_and_payload_witness :
    (A2AClient.send_request ⟨"alice", 120, []⟩ "id" "t" "bob" "ep" []
      (fun _ _ => .response 500 [])).1 =
      Except.error (.transport (.httpStatus 500)) :=
  ((send_request_transport_and_payload ⟨"alice", 120, []⟩ "id" "t" "bob" "ep"
      [] (fun _ _ => .response 500 [])).2 500 [] rfl).1 (by decide)

/-- The call `AgentInfo(**d)` always stores the body's raw `capabilities` value; it
never converts mappings back into `AgentCapability` values. -/
theorem AgentInfo.fromKwargs_capabilities_rawv {body : Obj} {a : AgentInfo}
    (h : AgentInfo.fromKwargs body = Except.ok a) :
    ∃ v, a.capabilities = .rawv v := by
  unfold AgentInfo.fromKwargs at h
  split at h
  · split at h
    · cases h
      exact ⟨_, rfl⟩
    · cases h
  · cases h

/-- C7: the first `get_agent_info endpoint` call GETs
`{endpoint}/info`, deserializes the body into a descriptor, stores it in
the cache keyed by `endpoint` and returns it; a call finding `endpoint`
cached returns the cached descriptor with zero network calls and an
unchanged cache; `get_agent_info` never evicts or replaces an existing
cache entry, and `send_request` never touches the client state at all. -/
theorem get_agent_info_cache_behavior (c : A2AClient) (endpoint : String)
    (net : String → HTTPOutcome) :
    (∀ a, AList.get c.agent_cache endpoint = some a →
      c.get_agent_info endpoint net = (Except.ok a, c, 0)) ∧
    (∀ status body a,
      AList.get c.agent_cache endpoint = none →
      net (endpoint ++ "/info") = .response status body →
      ¬ (400 ≤ status ∧ status < 600) →
      AgentInfo.fromKwargs body = Except.ok a →
      c.get_agent_info endpoint net =
        (Except.ok a,
         { c with agent_cache := c.agent_cache ++ [(endpoint, a)] }, 1) ∧
      AList.get (c.agent_cache ++ [(endpoint, a)]) endpoint = some a) ∧
    (∀ ep a, AList.get c.agent_cache ep = some a →
      AList.get ((c.get_agent_info endpoint net).2.1.agent_cache) ep = some a) ∧
    (∀ newId now to_agent ep payload pnet,
      (c.send_request newId now to_agent ep payload pnet).2 = c) := by
  refine ⟨?_, ?_, ?_, ?_⟩
  · intro a ha
    simp [A2AClient.get_agent_info, ha]
  · intro status body a hmiss hnet hs hkw
    refine ⟨?_, AList.get_append_single_self hmiss a⟩
    simp [A2AClient.get_agent_info, hmiss, hnet, raise_for_status, hs, hkw]
  · intro ep a ha
    cases hc : AList.get c.agent_cache endpoint with
    | some x => simpa [A2AClient.get_agent_info, hc] using ha
    | none =>
      cases hnet : net (endpoint ++ "/info") with
      | failure e => simpa [A2AClient.get_agent_info, hc, hnet] using ha
      | response status body =>
        cases hrs : raise_for_status status with
        | error e =>
          simpa [A2AClient.get_agent_info, hc, hnet, hrs] using ha
        | ok u =>
          cases hkw : AgentInfo.fromKwargs body with
          | error e =>
            simpa [A2AClient.get_agent_info, hc, hnet, hrs, hkw] using ha
          | ok info =>
            simp only [A2AClient.get_agent_info, hc, hnet, hrs, hkw]
            exact AList.get_append_of_get_some ha
  · intro newId now to_agent ep payload pnet
    rfl

/-- Witness for C7: a cache hit returns the stored descriptor with zero
network calls. -/
theorem get_agent_info_cache_behavior_witness :
    A2AClient.get_agent_info
      ⟨"alice", 120,
       [("http://b",
         ⟨.str "b", .str "B", .str "desc", .str "http://b",
          .rawv (.arr []), .str "fw", .str "mp", .str "active"⟩)]⟩
      "http://b" (fun _ => .failure .timeout) =
    (Except.ok
      ⟨.str "b", .str "B", .str "desc", .str "http://b",
       .rawv (.arr []), .str "fw", .str "mp", .str "active"⟩,
     ⟨"alice", 120,
      [("http://b",
        ⟨.str "b", .str "B", .str "desc", .str "http://b",
         .rawv (.arr []), .str "fw", .str "mp", .str "active"⟩)]⟩, 0) :=
  (get_agent_info_cache_behavior _ "http://b" (fun _ => .failure .timeout)).1
    _ rfl

/-- C8: descriptor serialization does not round-trip: for a descriptor
whose capabilities list holds `AgentCapability` values and is non-empty,
`AgentInfo(**a.to_dict())` builds a descriptor that is not Python-equal to
`a`, because `asdict` flattens each capability into a plain mapping and the
constructor stores mappings as-is; consequently the descriptor that
`get_agent_info` deserializes, caches and returns holds a raw JSON value
rather than `AgentCapability` values in its capabilities field. -/
theorem agent_info_roundtrip_fails (a : AgentInfo)
    (caps : List AgentCapability) (hcaps : a.capabilities = .typed caps)
    (hne : caps ≠ []) :
    (∃ a', AgentInfo.fromKwargs a.to_dict = Except.ok a' ∧
      ¬ AgentInfo.pyEq a' a) ∧
    (∀ (c : A2AClient) (endpoint : String) (net : String → HTTPOutcome)
        (status : Nat) (body : Obj) (b : AgentInfo),
      AList.get c.agent_cache endpoint = none →
      net (endpoint ++ "/info") = .response status body →
      ¬ (400 ≤ status ∧ status < 600) →
      AgentInfo.fromKwargs body = Except.ok b →
      (c.get_agent_info endpoint net).1 = Except.ok b ∧
      AList.get ((c.get_agent_info endpoint net).2.1.agent_cache) endpoint =
        some b ∧
      ∃ v, b.capabilities = .rawv v) := by
  refine ⟨?_, ?_⟩
  · refine ⟨⟨a.agent_id, a.name, a.description, a.endpoint,
      .rawv a.capabilities.asdictVal, a.framework, a.model_provider,
      a.status⟩, ?_, ?_⟩
    · simp [AgentInfo.fromKwargs, AgentInfo.to_dict, Obj.get, Obj.keys,
        AgentInfo.fieldNames]
    · intro hpe
      unfold AgentInfo.pyEq at hpe
      obtain ⟨-, -, -, -, hcap, -, -, -⟩ := hpe
      rw [hcaps] at hcap
      simp [CapsVal.pyEq, CapsVal.asdictVal] at hcap
      exact hne hcap
  · intro c endpoint net status body b hmiss hnet hs hkw
    refine ⟨?_, ?_, AgentInfo.fromKwargs_capabilities_rawv hkw⟩
    · simp [A2AClient.get_agent_info, hmiss, hnet, raise_for_status, hs, hkw]
    · simp only [A2AClient.get_agent_info, hmiss, hnet, raise_for_status,
        if_neg hs, hkw]
      exact AList.get_append_single_self hmiss b

/-- Witness for C8 at a one-capability descriptor. -/
theorem agent_info_roundtrip_fails_witness :
    ∃ a', AgentInfo.fromKwargs
      (AgentInfo.to_dict
        ⟨.str "b", .str "B", .str "desc", .str "http://b",
         .typed [⟨"echo", "echoes", [], []⟩],
         .str "fw", .str "mp", .str "active"⟩) = Except.ok a' ∧
      ¬ AgentInfo.pyEq a'
        ⟨.str "b", .str "B", .str "desc", .str "http://b",
         .typed [⟨"echo", "echoes", [], []⟩],
         .str "fw", .str "mp", .str "active"⟩ :=
  (agent_info_roundtrip_fails _ [⟨"echo", "echoes", [], []⟩] rfl
    (List.cons_ne_nil _ _)).1

end A2A
